import Mathlib

/-!
Expectation predicates of the janitor test helper.

A shallow embedding of `internal/testhelpers/janitor_test_helper.go`: the
fixture generators, the `notAfter` test cycles and the predicates with which the
helper decides, for every fixture, whether a janitor pass must have deleted it.

Time is modelled after Go's `time` package.  A `time.Time` is an instant with
nanosecond precision; the model stores it as the number of nanoseconds since the
Unix epoch.  The monotonic clock reading and the location of a Go `Time` do not
take part in `Unix`, `After`, `Before`, `Add` or `Round` results that the helper
uses, so they are left out.  Instants are taken in the range in which Go's
second counter does not overflow.
-/

namespace time

/-- A Go `time.Duration`: a signed 64-bit count of nanoseconds. -/
abbrev Duration := Int

/-- Two's-complement reduction of an integer to the `int64` range, the result of
Go's `int64` arithmetic on run-time operands. -/
def wrap64 (x : Int) : Int := (x + 9223372036854775808) % 18446744073709551616 - 9223372036854775808

/-- Go `time.Nanosecond`. -/
def Nanosecond : Duration := 1
/-- Go `time.Second`. -/
def Second : Duration := 1000000000
/-- Go `time.Minute`. -/
def Minute : Duration := 60 * Second
/-- Go `time.Hour`. -/
def Hour : Duration := 60 * Minute

/-- Run-time `a + b` on durations (`int64` addition). -/
def Duration.add (a b : Duration) : Duration := wrap64 (a + b)

/-- Run-time `-a` on a duration (`int64` negation). -/
def Duration.neg (a : Duration) : Duration := wrap64 (-a)

/-- A Go `time.Time`, as nanoseconds since January 1, 1970 UTC. -/
structure Time where
  unixNano : Int
  deriving DecidableEq, Repr

/-- Go `t.Unix()`: the number of whole seconds elapsed since the Unix epoch
(rounded towards minus infinity, the nanosecond part being non-negative). -/
def Time.Unix (t : Time) : Int := t.unixNano / 1000000000

/-- Go `t.Nanosecond()`: the nanosecond offset within the second, in `[0, 999999999]`. -/
def Time.Nanosecond (t : Time) : Int := t.unixNano % 1000000000

/-- Go `time.Unix(sec, nsec)` for `nsec` in `[0, 999999999]`. -/
def Unix (sec nsec : Int) : Time := ⟨sec * 1000000000 + nsec⟩

/-- Go `t.After(u)`: whether the instant `t` is after `u`. -/
def Time.After (t u : Time) : Bool := decide (u.unixNano < t.unixNano)

/-- Go `t.Before(u)`: whether the instant `t` is before `u`. -/
def Time.Before (t u : Time) : Bool := decide (t.unixNano < u.unixNano)

/-- Go `t.Add(d)`. -/
def Time.Add (t : Time) (d : Duration) : Time := ⟨t.unixNano + d⟩

/-- Seconds from Go's zero time (January 1, year 1, 00:00:00 UTC) to the Unix epoch. -/
def unixToInternal : Int := 62135596800

/-- Go `t.Round(d)`: `t` rounded to the nearest multiple of `d` since the zero
time, halfway values rounding up; `t` itself when `d <= 0`. -/
def Time.Round (t : Time) (d : Duration) : Time :=
  if d ≤ 0 then t
  else
    let r : Duration := (t.unixNano + unixToInternal * 1000000000) % d
    if r + r < d then t.Add (-r) else t.Add (d - r)

end time

namespace client

/-- The fields of `client.Client` that the fixtures set. -/
structure Client where
  ID : String
  RedirectURIs : List String
  deriving DecidableEq, Repr

end client

namespace flow

/-- The fields of `flow.LoginRequest` that the fixtures set. -/
structure LoginRequest where
  ID : String
  RequestedScope : List String
  Subject : String
  Client : client.Client
  RequestURL : String
  RequestedAt : time.Time
  AuthenticatedAt : time.Time
  Verifier : String
  deriving DecidableEq, Repr

/-- The fields of `flow.OAuth2ConsentRequest` that the fixtures set. -/
structure OAuth2ConsentRequest where
  ConsentRequestID : String
  RequestedScope : List String
  Subject : String
  ClientID : String
  RequestURL : String
  LoginChallenge : String
  RequestedAt : time.Time
  Verifier : String
  CSRF : String
  deriving DecidableEq, Repr

end flow

namespace trust

/-- The fields of `trust.Grant` that the grant check reads: its identifier (a
UUID, kept as text) and the two timestamps. -/
structure Grant where
  ID : String
  Issuer : String
  Subject : String
  CreatedAt : time.Time
  ExpiresAt : time.Time
  deriving DecidableEq, Repr

end trust

namespace strings

/-- The scan of `strings.Split` for a one-character separator: `acc` holds, in
reverse, the characters read since the last separator. -/
def Split.go (sep : Char) : List Char → List Char → List String
  | [], acc => [String.mk acc.reverse]
  | c :: cs, acc =>
    if c = sep then String.mk acc.reverse :: Split.go sep cs [] else Split.go sep cs (c :: acc)

/-- Go `strings.Split(s, sep)` for a separator of one character, as in the call
`strings.Split(token, ".")`: the substrings between the separators, one more
than there are separators. -/
def Split (s : String) (sep : Char) : List String := Split.go sep s.data []

end strings

namespace base64

/-- The value of a character in the URL-safe alphabet of Go's
`base64.URLEncoding` (`A-Z`, `a-z`, `0-9`, `-`, `_`), if it is in it. -/
def decodeMap (c : Char) : Option Nat :=
  if 'A' ≤ c ∧ c ≤ 'Z' then some (c.toNat - 65)
  else if 'a' ≤ c ∧ c ≤ 'z' then some (c.toNat - 97 + 26)
  else if '0' ≤ c ∧ c ≤ '9' then some (c.toNat - 48 + 52)
  else if c = '-' then some 62
  else if c = '_' then some 63
  else none

/-- The bytes of the quanta of 6-bit values, as Go's decoder without padding and
not in strict mode yields them: three bytes for four values, two bytes for a
last group of three, one byte for a last group of two, and an error for a last
group of one. -/
def decodeQuanta : List Nat → Option (List Nat)
  | a :: b :: c :: d :: rest =>
    let val := a * 262144 + b * 4096 + c * 64 + d
    (decodeQuanta rest).map fun bytes => val / 65536 % 256 :: val / 256 % 256 :: val % 256 :: bytes
  | [a, b, c] =>
    let val := a * 262144 + b * 4096 + c * 64
    some [val / 65536 % 256, val / 256 % 256]
  | [a, b] =>
    let val := a * 262144 + b * 4096
    some [val / 65536 % 256]
  | [_] => none
  | [] => some []

/-- Go `base64.RawURLEncoding.DecodeString(s)`: `none` stands for a non-nil
error.  The decoder skips carriage returns and line feeds and rejects every
other character outside the alphabet, the padding character included. -/
def RawURLEncoding.DecodeString (s : String) : Option (List Nat) :=
  match (s.data.filter fun c => c ≠ '\n' ∧ c ≠ '\r').mapM decodeMap with
  | none => none
  | some vals => decodeQuanta vals

end base64

namespace http

/-- Go `http.StatusNotImplemented`. -/
def StatusNotImplemented : Nat := 501

/-- A non-nil `http.HandlerFunc`, seen through the status code that it writes
for a request (given by its path). -/
abbrev Handler := String → Nat

/-- A Go `http.HandlerFunc` value: `none` is the nil function. -/
abbrev HandlerFunc := Option Handler

end http

namespace oauth2

/-- The part of `oauth2.Session` that the fixtures set: the subject of its
`openid.DefaultSession`. -/
structure Session where
  Subject : String
  deriving DecidableEq, Repr

end oauth2

namespace fosite

/-- The fields of `fosite.Request` that the fixtures set (`Form` is a
`url.Values`, a map from keys to lists of values, kept as an association list). -/
structure Request where
  ID : String
  RequestedAt : time.Time
  Client : client.Client
  RequestedScope : List String
  GrantedScope : List String
  Form : List (String × List String)
  Session : oauth2.Session
  deriving DecidableEq, Repr

/-- The fields of `fosite.AccessRequest` that the fixtures set. -/
structure AccessRequest where
  GrantTypes : List String
  Request : Request
  deriving DecidableEq, Repr

end fosite

namespace testhelpers

open time

/-- The package constant `lifespan = time.Hour`. -/
def lifespan : Duration := Hour

/-- The effective cutoff `lesser` that `notAfterCheck` selects: `notAfter` when
its Unix second is smaller than that of the lifespan cutoff, else the lifespan
cutoff. -/
def notAfterCheck.lesser (notAfter lifespan : Time) : Time :=
  if notAfter.Unix < lifespan.Unix then notAfter else lifespan

/-- The method `notAfterCheck` of the helper (the receiver is not used):
`true` means that the value is expected to have been deleted, `false` that it
still exists. -/
def notAfterCheck (notAfter lifespan requestedAt : Time) : Bool :=
  let lesser := notAfterCheck.lesser notAfter lifespan
  decide (lesser.Unix > requestedAt.Unix)

/-- The method `GetConsentRequestLifespan`: the helper is configured with
`config.KeyConsentRequestMaxAge = lifespan`. -/
def GetConsentRequestLifespan : Duration := lifespan

/-- The package variable `NotAfterTestCycles` (a Go map, listed in source order):
how far before now each cycle places `notAfter`.  The values are constant
expressions, evaluated exactly. -/
def NotAfterTestCycles : List (String × Duration) :=
  [("notAfter24h", lifespan * 24),
   ("notAfter1h30m", lifespan + Hour / 2),
   ("notAfterNow", 0)]

/-- In `JanitorTests`, `notAfter := time.Now().Round(time.Second).Add(-v)` for
the cycle value `v`; `clock` is the reading of `time.Now()`. -/
def JanitorTests.notAfter (clock : Time) (v : Duration) : Time :=
  (clock.Round Second).Add (Duration.neg v)

/-- In `JanitorTests`, `consentRequestLifespan :=
time.Now().Round(time.Second).Add(-jt.GetConsentRequestLifespan(ctx))`. -/
def JanitorTests.consentRequestLifespan (clock : Time) : Time :=
  (clock.Round Second).Add (Duration.neg GetConsentRequestLifespan)

/-- The cutoff `deleteUntil` of `GrantNotAfterValidate`: now rounded to the
second, replaced by `notAfter` when it is after `notAfter`.  `clock` is the
reading of `time.Now()`. -/
def GrantNotAfterValidate.deleteUntil (clock notAfter : Time) : Time :=
  let deleteUntil := clock.Round Second
  if deleteUntil.After notAfter then notAfter else deleteUntil

/-- The branch condition of `GrantNotAfterValidate` for one grant: `true` when
the helper requires `GetConcreteGrant` to fail (the grant has been deleted),
`false` when it requires it to succeed. -/
def GrantNotAfterValidate.expectError (clock notAfter expiresAt : Time) : Bool :=
  (GrantNotAfterValidate.deleteUntil clock notAfter).After expiresAt

/-- The method `GrantNotAfterValidate` run over the helper's `flushGrants`:
`getErr id` tells whether `gr.GetConcreteGrant(ctx, id)` returns an error, and
the result tells whether every `require` assertion holds (the test passes). -/
def GrantNotAfterValidate (clock notAfter : Time) (flushGrants : List trust.Grant)
    (getErr : String → Bool) : Bool :=
  flushGrants.all fun r =>
    let err := getErr r.ID
    if GrantNotAfterValidate.expectError clock notAfter r.ExpiresAt then err else !err

/-- The flag `isExpired` of `LoginConsentNotAfterValidate`, computed alike in
the login loop and in the consent loop: `r.RequestedAt.Before(consentRequestLifespan)`.
The argument `notAfter` is only logged. -/
def LoginConsentNotAfterValidate.isExpired (_notAfter consentRequestLifespan requestedAt : Time) :
    Bool :=
  requestedAt.Before consentRequestLifespan

/-- The login loop of `LoginConsentNotAfterValidate`: the `isExpired` flag of
every login fixture, in order. -/
def LoginConsentNotAfterValidate.loginExpired (notAfter consentRequestLifespan : Time)
    (flushLoginRequests : List flow.LoginRequest) : List Bool :=
  flushLoginRequests.map fun r =>
    LoginConsentNotAfterValidate.isExpired notAfter consentRequestLifespan r.RequestedAt

/-- The consent loop of `LoginConsentNotAfterValidate`: the `isExpired` flag of
every consent fixture, in order. -/
def LoginConsentNotAfterValidate.consentExpired (notAfter consentRequestLifespan : Time)
    (flushConsentRequests : List flow.OAuth2ConsentRequest) : List Bool :=
  flushConsentRequests.map fun r =>
    LoginConsentNotAfterValidate.isExpired notAfter consentRequestLifespan r.RequestedAt

/-- The generator `genLoginRequests`.  `clock` is the reading of `time.Now()`,
taken to be the same at every call inside the generator. -/
def genLoginRequests (uniqueName : String) (lifespan : Duration) (clock : Time) :
    List flow.LoginRequest :=
  [ { ID := uniqueName ++ "_flush-login-1"
      RequestedScope := ["foo", "bar"]
      Subject := uniqueName ++ "_flush-login-1"
      Client := { ID := uniqueName ++ "_flush-login-consent-1", RedirectURIs := ["http://redirect"] }
      RequestURL := "http://redirect"
      RequestedAt := clock.Round Second
      AuthenticatedAt := clock.Round Second
      Verifier := uniqueName ++ "_flush-login-1" },
    { ID := uniqueName ++ "_flush-login-2"
      RequestedScope := ["foo", "bar"]
      Subject := uniqueName ++ "_flush-login-2"
      Client := { ID := uniqueName ++ "_flush-login-consent-2", RedirectURIs := ["http://redirect"] }
      RequestURL := "http://redirect"
      RequestedAt := (clock.Round Second).Add (Duration.neg (Duration.add lifespan (10 * Minute)))
      AuthenticatedAt := (clock.Round Second).Add (Duration.neg (Duration.add lifespan (10 * Minute)))
      Verifier := uniqueName ++ "_flush-login-2" },
    { ID := uniqueName ++ "_flush-login-3"
      RequestedScope := ["foo", "bar"]
      Subject := uniqueName ++ "_flush-login-3"
      Client := { ID := uniqueName ++ "_flush-login-consent-3", RedirectURIs := ["http://redirect"] }
      RequestURL := "http://redirect"
      RequestedAt := (clock.Round Second).Add (Duration.neg (Duration.add lifespan Hour))
      AuthenticatedAt := (clock.Round Second).Add (Duration.neg (Duration.add lifespan Hour))
      Verifier := uniqueName ++ "_flush-login-3" } ]

/-- The generator `genConsentRequests` (`OpenIDConnectContext` is nil in every
fixture and is left out).  `clock` is the reading of `time.Now()`. -/
def genConsentRequests (uniqueName : String) (lifespan : Duration) (clock : Time) :
    List flow.OAuth2ConsentRequest :=
  [ { ConsentRequestID := uniqueName ++ "_flush-consent-1"
      RequestedScope := ["foo", "bar"]
      Subject := uniqueName ++ "_flush-consent-1"
      ClientID := uniqueName ++ "_flush-login-consent-1"
      RequestURL := "http://redirect"
      LoginChallenge := uniqueName ++ "_flush-login-1"
      RequestedAt := clock.Round Second
      Verifier := uniqueName ++ "_flush-consent-1"
      CSRF := uniqueName ++ "_flush-consent-1" },
    { ConsentRequestID := uniqueName ++ "_flush-consent-2"
      RequestedScope := ["foo", "bar"]
      Subject := uniqueName ++ "_flush-consent-2"
      ClientID := uniqueName ++ "_flush-login-consent-2"
      RequestURL := "http://redirect"
      LoginChallenge := uniqueName ++ "_flush-login-2"
      RequestedAt := (clock.Round Second).Add (Duration.neg (Duration.add lifespan Minute))
      Verifier := uniqueName ++ "_flush-consent-2"
      CSRF := uniqueName ++ "_flush-consent-2" },
    { ConsentRequestID := uniqueName ++ "_flush-consent-3"
      RequestedScope := ["foo", "bar"]
      Subject := uniqueName ++ "_flush-consent-3"
      ClientID := uniqueName ++ "_flush-login-consent-3"
      RequestURL := "http://redirect"
      LoginChallenge := uniqueName ++ "_flush-login-3"
      RequestedAt := (clock.Round Second).Add (Duration.neg (Duration.add lifespan Hour))
      Verifier := uniqueName ++ "_flush-consent-3"
      CSRF := uniqueName ++ "_flush-consent-3" } ]

/-- The generator `getAccessRequests` (a client given by its ID alone has no
redirect URIs).  `clock` is the reading of `time.Now()`. -/
def getAccessRequests (uniqueName : String) (lifespan : Duration) (clock : Time) :
    List fosite.Request :=
  [ { ID := uniqueName ++ "_flush-access-1"
      RequestedAt := clock.Round Second
      Client := { ID := uniqueName ++ "_flush-access-1", RedirectURIs := [] }
      RequestedScope := ["fa", "ba"]
      GrantedScope := ["fa", "ba"]
      Form := [("foo", ["bar", "baz"])]
      Session := { Subject := "bar" } },
    { ID := uniqueName ++ "_flush-access-2"
      RequestedAt := (clock.Round Second).Add (Duration.neg (Duration.add lifespan Minute))
      Client := { ID := uniqueName ++ "_flush-access-2", RedirectURIs := [] }
      RequestedScope := ["fa", "ba"]
      GrantedScope := ["fa", "ba"]
      Form := [("foo", ["bar", "baz"])]
      Session := { Subject := "bar" } },
    { ID := uniqueName ++ "_flush-access-3"
      RequestedAt := (clock.Round Second).Add (Duration.neg (Duration.add lifespan Hour))
      Client := { ID := uniqueName ++ "_flush-access-3", RedirectURIs := [] }
      RequestedScope := ["fa", "ba"]
      GrantedScope := ["fa", "ba"]
      Form := [("foo", ["bar", "baz"])]
      Session := { Subject := "bar" } } ]

/-- The local `tokenSignature` of `getRefreshRequests`. -/
def getRefreshRequests.tokenSignature : String := "4c7c7e8b3a77ad0c3ec846a21653c48b45dbfa31"

/-- The generator `getRefreshRequests`.  `clock` is the reading of `time.Now()`. -/
def getRefreshRequests (uniqueName : String) (lifespan : Duration) (clock : Time) :
    List fosite.AccessRequest :=
  [ { GrantTypes := ["refresh_token"]
      Request :=
        { RequestedAt := clock.Round Second
          ID := uniqueName ++ "_flush-refresh-1"
          Client := { ID := uniqueName ++ "_flush-refresh-1", RedirectURIs := [] }
          RequestedScope := ["offline"]
          GrantedScope := ["offline"]
          Session := { Subject := "bar" }
          Form := [("refresh_token",
            [(uniqueName ++ "_flush-refresh-1") ++ "." ++ getRefreshRequests.tokenSignature])] } },
    { GrantTypes := ["refresh_token"]
      Request :=
        { RequestedAt := (clock.Round Second).Add (Duration.neg (Duration.add lifespan Minute))
          ID := uniqueName ++ "_flush-refresh-2"
          Client := { ID := uniqueName ++ "_flush-refresh-2", RedirectURIs := [] }
          RequestedScope := ["offline"]
          GrantedScope := ["offline"]
          Session := { Subject := "bar" }
          Form := [("refresh_token",
            [(uniqueName ++ "_flush-refresh-2") ++ "." ++ getRefreshRequests.tokenSignature])] } },
    { GrantTypes := ["refresh_token"]
      Request :=
        { RequestedAt := (clock.Round Second).Add (Duration.neg (Duration.add lifespan Hour))
          ID := uniqueName ++ "_flush-refresh-3"
          Client := { ID := uniqueName ++ "_flush-refresh-3", RedirectURIs := [] }
          RequestedScope := ["offline"]
          GrantedScope := ["offline"]
          Session := { Subject := "bar" }
          Form := [("refresh_token",
            [(uniqueName ++ "_flush-refresh-3") ++ "." ++ getRefreshRequests.tokenSignature])] } } ]

/-- The login-request IDs of the fixtures of `genLoginRequests`, in order. -/
def loginRequestIDs (uniqueName : String) (lifespan : Duration) (clock : Time) : List String :=
  (genLoginRequests uniqueName lifespan clock).map fun r => r.ID

/-- The consent-request IDs of the fixtures of `genConsentRequests`, in order. -/
def consentRequestIDs (uniqueName : String) (lifespan : Duration) (clock : Time) : List String :=
  (genConsentRequests uniqueName lifespan clock).map fun r => r.ConsentRequestID

/-- The access-session IDs of the fixtures of `getAccessRequests`, in order. -/
def accessSessionIDs (uniqueName : String) (lifespan : Duration) (clock : Time) : List String :=
  (getAccessRequests uniqueName lifespan clock).map fun r => r.ID

/-- The refresh-session IDs of the fixtures of `getRefreshRequests`, in order. -/
def refreshSessionIDs (uniqueName : String) (lifespan : Duration) (clock : Time) : List String :=
  (getRefreshRequests uniqueName lifespan clock).map fun r => r.Request.ID

/-- The IDs of the clients that the setup steps create with `cl.CreateClient`:
those of the login fixtures, of the access fixtures and of the refresh
fixtures. -/
def clientIDs (uniqueName : String) (lifespan : Duration) (clock : Time) : List String :=
  ((genLoginRequests uniqueName lifespan clock).map fun r => r.Client.ID) ++
    ((getAccessRequests uniqueName lifespan clock).map fun r => r.Client.ID) ++
    ((getRefreshRequests uniqueName lifespan clock).map fun r => r.Request.Client.ID)

/-- Modelled from the spec: one round trip of the store's `FlushExpired`, whose
code (the SQL persister) is not among the sources.  It deletes the first `n`
candidates of the store, in the store's iteration order, and leaves every other
artifact in place. -/
def FlushExpired.deleteBatch {α : Type} (candidate : α → Bool) : Nat → List α → List α
  | 0, store => store
  | _ + 1, [] => []
  | n + 1, x :: store =>
    if candidate x then FlushExpired.deleteBatch candidate n store
    else x :: FlushExpired.deleteBatch candidate (n + 1) store

/-- Modelled from the spec: the sizes of the round trips of one `FlushExpired`
call, whose code is not among the sources: "delete up to `limit` artifacts
total, in chunks of at most `batchSize` identifiers per round trip", for
`1 ≤ batchSize`. -/
def FlushExpired.batchSizes (limit batchSize : Nat) : List Nat :=
  List.replicate (limit / batchSize) batchSize ++
    (if limit % batchSize = 0 then [] else [limit % batchSize])

/-- Modelled from the spec: the store operation `FlushExpired`, whose code is
not among the sources: it runs the round trips one after the other over the
candidates; a round trip that finds no candidate deletes nothing. -/
def FlushExpired {α : Type} (candidate : α → Bool) (limit batchSize : Nat) (store : List α) :
    List α :=
  (FlushExpired.batchSizes limit batchSize).foldl
    (fun st n => FlushExpired.deleteBatch candidate n st) store

/-- Modelled from the spec: the candidates of `FlushInactiveLoginConsentRequests`,
whose code is not among the sources: the requests with
`requested_at < min(notAfter, cutoff)`, compared in seconds, where the cutoff is
now minus the consent-request max age. -/
def FlushInactiveLoginConsentRequests.candidate (now notAfter : Time) (maxAge : Duration)
    (r : flow.LoginRequest) : Bool :=
  decide (r.RequestedAt.Unix < min notAfter.Unix (now.Add (Duration.neg maxAge)).Unix)

/-- Modelled from the spec: `FlushInactiveLoginConsentRequests(ctx, notAfter,
limit, batchSize)` of the login/consent store, whose code is not among the
sources; the result is the store after the call. -/
def FlushInactiveLoginConsentRequests (now notAfter : Time) (maxAge : Duration)
    (limit batchSize : Nat) (store : List flow.LoginRequest) : List flow.LoginRequest :=
  FlushExpired (FlushInactiveLoginConsentRequests.candidate now notAfter maxAge) limit batchSize
    store

/-- In `JanitorTests`, case=limit, step=cleanup: the arguments `notAfter`,
`limit` and `batchSize` of the call
`FlushInactiveLoginConsentRequests(ctx, time.Now().Round(time.Second), 2, 1)`. -/
def JanitorTests.limitCleanupArgs (clock : Time) : Time × Nat × Nat :=
  (clock.Round Second, 2, 1)

/-- In `JanitorTests`, case=limit: the helper is built for `network+"limit"` and
`LimitSetup` creates one login request for every element of its
`flushLoginRequests`. -/
def JanitorTests.limitSeeded (network : String) (clock : Time) : List flow.LoginRequest :=
  genLoginRequests (network ++ "limit") lifespan clock

/-- The assertion of `InsecureDecodeJWT` that stopped the test. -/
inductive TestFailure where
  | Len
  | NoErrorf
  deriving DecidableEq, Repr

/-- The helper `InsecureDecodeJWT`, over the decoder that it calls
(`base64.RawURLEncoding.DecodeString`, with `none` for a non-nil error): the
decoded payload, or the `require` assertion that failed. -/
def InsecureDecodeJWT (DecodeString : String → Option (List Nat)) (token : String) :
    Except TestFailure (List Nat) :=
  let parts := strings.Split token '.'
  match parts with
  | [_, payload, _] =>
    match DecodeString payload with
    | none => .error TestFailure.NoErrorf
    | some dec => .ok dec
  | _ => .error TestFailure.Len

/-- The handler `HTTPServerNotImplementedHandler`, which writes the header with
`http.StatusNotImplemented`. -/
def HTTPServerNotImplementedHandler : http.Handler := fun _ => http.StatusNotImplemented

/-- The helper `NewLoginConsentUI`: the handler given to `httptest.NewServer`
for the login server `lt` and the one given for the consent server `ct`. -/
def NewLoginConsentUI (login consent : http.HandlerFunc) : http.HandlerFunc × http.HandlerFunc :=
  let login := if login.isNone then some HTTPServerNotImplementedHandler else login
  let login := if consent.isNone then some HTTPServerNotImplementedHandler else login
  (login, consent)

/-- The epoch-zero timestamp, Go `time.Unix(0, 0)`. -/
def epochZero : Time := Unix 0 0

/-! ## Theorems -/

/-- The result of `notAfterCheck` as a comparison of Unix seconds. -/
theorem notAfterCheck_eq_decide (notAfter lifespan requestedAt : Time) :
    notAfterCheck notAfter lifespan requestedAt =
      decide (min notAfter.Unix lifespan.Unix > requestedAt.Unix) := by
  unfold notAfterCheck notAfterCheck.lesser
  by_cases h : notAfter.Unix < lifespan.Unix
  · simp [h, min_eq_left (le_of_lt h)]
  · simp [h, min_eq_right (not_lt.mp h)]

/-- C1: `notAfterCheck` returns true exactly when the smaller of the Unix
seconds of `notAfter` and of the lifespan cutoff is greater than the Unix second
of `requestedAt`. -/
theorem notAfterCheck_iff_min_gt (notAfter lifespan requestedAt : Time) :
    notAfterCheck notAfter lifespan requestedAt = true ↔
      min notAfter.Unix lifespan.Unix > requestedAt.Unix := by
  rw [notAfterCheck_eq_decide]
  exact decide_eq_true_iff

/-- C2: when the smaller of the Unix seconds of `notAfter` and of the lifespan
cutoff equals the Unix second of `requestedAt`, `notAfterCheck` returns false:
the artifact is retained. -/
theorem notAfterCheck_retains_on_equality (notAfter lifespan requestedAt : Time)
    (h : min notAfter.Unix lifespan.Unix = requestedAt.Unix) :
    notAfterCheck notAfter lifespan requestedAt = false := by
  rw [notAfterCheck_eq_decide, h]
  simp

/-- C2 at `notAfter = 1700000000 s`, lifespan cutoff `1699996400 s` and
`requestedAt = 1699996400.25 s`. -/
theorem notAfterCheck_retains_on_equality_witness :
    notAfterCheck (Unix 1700000000 0) (Unix 1699996400 0) (Unix 1699996400 250000000) = false :=
  notAfterCheck_retains_on_equality (Unix 1700000000 0) (Unix 1699996400 0)
    (Unix 1699996400 250000000) (by decide)

/-- C3: for `notAfter1` not later than `notAfter2` in Unix seconds, every
artifact that `notAfterCheck` expects deleted under `notAfter1` is expected
deleted under `notAfter2`, and over any list of artifacts (their requested-at
times) the number of expected deletions under `notAfter1` is at most the number
under `notAfter2`. -/
theorem notAfterCheck_mono_notAfter (notAfter1 notAfter2 lifespan : Time)
    (h : notAfter1.Unix ≤ notAfter2.Unix) :
    (∀ requestedAt : Time, notAfterCheck notAfter1 lifespan requestedAt = true →
        notAfterCheck notAfter2 lifespan requestedAt = true) ∧
      ∀ artifacts : List Time,
        artifacts.countP (notAfterCheck notAfter1 lifespan) ≤
          artifacts.countP (notAfterCheck notAfter2 lifespan) := by
  have key : ∀ requestedAt : Time, notAfterCheck notAfter1 lifespan requestedAt = true →
      notAfterCheck notAfter2 lifespan requestedAt = true := by
    intro requestedAt h1
    rw [notAfterCheck_eq_decide, decide_eq_true_iff] at h1 ⊢
    exact lt_of_lt_of_le h1 (min_le_min_right _ h)
  exact ⟨key, fun artifacts => List.countP_mono_left fun x _ hx => key x hx⟩

/-- C3 at `notAfter1 = 1699990000 s`, `notAfter2 = 1700000000 s` and lifespan
cutoff `1699996400 s`. -/
theorem notAfterCheck_mono_notAfter_witness :
    (∀ requestedAt : Time,
        notAfterCheck (Unix 1699990000 0) (Unix 1699996400 0) requestedAt = true →
        notAfterCheck (Unix 1700000000 0) (Unix 1699996400 0) requestedAt = true) ∧
      ∀ artifacts : List Time,
        artifacts.countP (notAfterCheck (Unix 1699990000 0) (Unix 1699996400 0)) ≤
          artifacts.countP (notAfterCheck (Unix 1700000000 0) (Unix 1699996400 0)) :=
  notAfterCheck_mono_notAfter (Unix 1699990000 0) (Unix 1700000000 0) (Unix 1699996400 0)
    (by decide)

/-- C4, as stated, fails: with the epoch-zero `notAfter`, the lifespan cutoff
`1699996400 s` and `requestedAt = 1699990000 s`, the effective cutoff is
`notAfter` and not the lifespan cutoff, and `notAfterCheck` returns false
although the lifespan cutoff is greater than `requestedAt`. -/
theorem notAfterCheck_epochZero_counterexample :
    notAfterCheck.lesser epochZero (Unix 1699996400 0) ≠ Unix 1699996400 0 ∧
      notAfterCheck epochZero (Unix 1699996400 0) (Unix 1699990000 0) ≠
        decide ((Unix 1699996400 0).Unix > (Unix 1699990000 0).Unix) := by
  decide

/-- C4, amended: with the epoch-zero `notAfter` the effective cutoff is the
lifespan cutoff only when the lifespan cutoff is not after the epoch second;
for a lifespan cutoff after it the effective cutoff is `notAfter` itself, and
`notAfterCheck` returns whether `requestedAt` lies before Unix second 0. -/
theorem notAfterCheck_epochZero (lifespan requestedAt : Time) :
    notAfterCheck.lesser epochZero lifespan
        = (if 0 < lifespan.Unix then epochZero else lifespan) ∧
      notAfterCheck epochZero lifespan requestedAt
        = (if 0 < lifespan.Unix then decide (0 > requestedAt.Unix)
            else decide (lifespan.Unix > requestedAt.Unix)) := by
  have h0 : epochZero.Unix = 0 := by decide
  unfold notAfterCheck notAfterCheck.lesser
  rw [h0]
  by_cases h : 0 < lifespan.Unix
  · simp [h, h0]
  · simp [h]

/-- C5: `notAfterCheck` returns the same result on two triples whose
components have pairwise the same Unix second, whatever their sub-second
parts. -/
theorem notAfterCheck_second_resolution
    (notAfter lifespan requestedAt notAfter' lifespan' requestedAt' : Time)
    (hn : notAfter.Unix = notAfter'.Unix) (hl : lifespan.Unix = lifespan'.Unix)
    (hr : requestedAt.Unix = requestedAt'.Unix) :
    notAfterCheck notAfter lifespan requestedAt = notAfterCheck notAfter' lifespan' requestedAt' := by
  rw [notAfterCheck_eq_decide, notAfterCheck_eq_decide, hn, hl, hr]

/-- C5 at three timestamps and their copies with other sub-second parts. -/
theorem notAfterCheck_second_resolution_witness :
    notAfterCheck (Unix 1700000000 0) (Unix 1699996400 0) (Unix 1699995800 0) =
      notAfterCheck (Unix 1700000000 999999999) (Unix 1699996400 500000000)
        (Unix 1699995800 1) :=
  notAfterCheck_second_resolution (Unix 1700000000 0) (Unix 1699996400 0) (Unix 1699995800 0)
    (Unix 1700000000 999999999) (Unix 1699996400 500000000) (Unix 1699995800 1)
    (by decide) (by decide) (by decide)

/-- Rounding to the second, spelled out on the nanosecond count. -/
theorem Round_Second_eq (clock : Time) :
    clock.Round Second =
      if clock.unixNano % 1000000000 + clock.unixNano % 1000000000 < 1000000000 then
        ⟨clock.unixNano + -(clock.unixNano % 1000000000)⟩
      else ⟨clock.unixNano + (1000000000 - clock.unixNano % 1000000000)⟩ := by
  have hr : (clock.unixNano + 62135596800 * 1000000000) % 1000000000
      = clock.unixNano % 1000000000 := by omega
  have hd : ¬ ((1000000000 : Int) ≤ 0) := by decide
  simp only [Time.Round, Second, unixToInternal, Time.Add, hr, hd, if_false]

/-- Rounding to the second yields a whole number of seconds: the second of the
clock reading, or the next one from half a second on. -/
theorem Round_Second_unixNano (clock : Time) :
    (clock.Round Second).unixNano = (clock.Round Second).Unix * 1000000000 ∧
      (clock.Nanosecond < 500000000 → (clock.Round Second).Unix = clock.Unix) ∧
      (500000000 ≤ clock.Nanosecond → (clock.Round Second).Unix = clock.Unix + 1) := by
  rw [Round_Second_eq]
  unfold Time.Unix Time.Nanosecond
  split <;> simp only <;> omega

/-- The cutoff of the grant check is the earlier of `notAfter` and now rounded
to the second. -/
theorem deleteUntil_unixNano (clock notAfter : Time) :
    (GrantNotAfterValidate.deleteUntil clock notAfter).unixNano =
      min notAfter.unixNano (clock.Round Second).unixNano := by
  unfold GrantNotAfterValidate.deleteUntil Time.After
  by_cases h : notAfter.unixNano < (clock.Round Second).unixNano
  · simp [h, min_eq_left (le_of_lt h)]
  · simp [h, min_eq_right (not_lt.mp h)]

/-- C6: with now the clock rounded to the second, `GrantNotAfterValidate`
expects a grant to be deleted exactly when the earlier of `notAfter` and now is
strictly after its `expires_at`; its assertions all hold exactly when
`GetConcreteGrant` fails for those grants and succeeds for the others; and a
grant with `expires_at = T - 1h` checked at now `T` with `notAfter = T` is
expected deleted. -/
theorem GrantNotAfterValidate_expects_deleted_iff (clock notAfter : Time) :
    (∀ expiresAt : Time, GrantNotAfterValidate.expectError clock notAfter expiresAt = true ↔
        min notAfter.unixNano (clock.Round Second).unixNano > expiresAt.unixNano) ∧
      (∀ (flushGrants : List trust.Grant) (getErr : String → Bool),
        GrantNotAfterValidate clock notAfter flushGrants getErr = true ↔
          ∀ r ∈ flushGrants, (getErr r.ID = true ↔
            min notAfter.unixNano (clock.Round Second).unixNano > r.ExpiresAt.unixNano)) ∧
      GrantNotAfterValidate.expectError clock (clock.Round Second)
        ((clock.Round Second).Add (Duration.neg Hour)) = true := by
  have key : ∀ expiresAt : Time,
      GrantNotAfterValidate.expectError clock notAfter expiresAt = true ↔
        min notAfter.unixNano (clock.Round Second).unixNano > expiresAt.unixNano := by
    intro expiresAt
    unfold GrantNotAfterValidate.expectError Time.After
    rw [deleteUntil_unixNano, decide_eq_true_iff]
  refine ⟨key, ?_, ?_⟩
  · intro flushGrants getErr
    unfold GrantNotAfterValidate
    rw [List.all_eq_true]
    refine forall₂_congr fun r _ => ?_
    rw [← key]
    cases GrantNotAfterValidate.expectError clock notAfter r.ExpiresAt <;>
      cases getErr r.ID <;> simp
  · unfold GrantNotAfterValidate.expectError Time.After
    rw [deleteUntil_unixNano, decide_eq_true_iff]
    have h : Duration.neg Hour = -3600000000000 := by decide
    rw [h]
    simp only [Time.Add, min_self]
    omega

/-- C7: a grant whose `expires_at` is after now (the clock rounded to the
second) is expected retained by `GrantNotAfterValidate`, whatever `notAfter`
is. -/
theorem GrantNotAfterValidate_retains_unexpired (clock notAfter expiresAt : Time)
    (h : (clock.Round Second).unixNano < expiresAt.unixNano) :
    GrantNotAfterValidate.expectError clock notAfter expiresAt = false := by
  unfold GrantNotAfterValidate.expectError Time.After
  rw [deleteUntil_unixNano, decide_eq_false_iff_not]
  have := min_le_right notAfter.unixNano (clock.Round Second).unixNano
  omega

/-- C7 at now `T = 1700000000 s`, `notAfter = T + 30m` and
`expires_at = T + 1h`: retained. -/
theorem GrantNotAfterValidate_retains_unexpired_witness :
    GrantNotAfterValidate.expectError (Unix 1700000000 0) (Unix 1700001800 0)
      (Unix 1700003600 0) = false :=
  GrantNotAfterValidate_retains_unexpired (Unix 1700000000 0) (Unix 1700001800 0)
    (Unix 1700003600 0) (by decide)

/-- C8, as stated, fails: at now `1700000001 s` and `notAfter = 1700000000.5 s`
a grant with `expires_at = 1700000000 s` is expected deleted, while a grant
whose `expires_at = 1700000000.7 s` has the same Unix second is expected
retained. -/
theorem GrantNotAfterValidate_subsecond_counterexample :
    (Unix 1700000000 0).Unix = (Unix 1700000000 700000000).Unix ∧
      GrantNotAfterValidate.expectError (Unix 1700000001 0) (Unix 1700000000 500000000)
          (Unix 1700000000 0) = true ∧
      GrantNotAfterValidate.expectError (Unix 1700000001 0) (Unix 1700000000 500000000)
          (Unix 1700000000 700000000) = false := by
  decide

/-- C8, amended: for a `notAfter` that is a whole number of seconds and now the
clock rounded to the second, `GrantNotAfterValidate` expects deletion exactly
when the smaller of the Unix seconds of `notAfter` and now is greater than the
Unix second of `expires_at`; hence replacing `expires_at` by a timestamp with
the same Unix second does not change the expectation. -/
theorem GrantNotAfterValidate_second_resolution (clock notAfter expiresAt expiresAt' : Time)
    (hn : notAfter.Nanosecond = 0) (he : expiresAt.Unix = expiresAt'.Unix) :
    GrantNotAfterValidate.expectError clock notAfter expiresAt =
        decide (min notAfter.Unix (clock.Round Second).Unix > expiresAt.Unix) ∧
      GrantNotAfterValidate.expectError clock notAfter expiresAt =
        GrantNotAfterValidate.expectError clock notAfter expiresAt' := by
  have key : ∀ e : Time, GrantNotAfterValidate.expectError clock notAfter e =
      decide (min notAfter.Unix (clock.Round Second).Unix > e.Unix) := by
    intro e
    unfold GrantNotAfterValidate.expectError Time.After
    rw [deleteUntil_unixNano, decide_eq_decide]
    have hT := (Round_Second_unixNano clock).1
    unfold Time.Unix Time.Nanosecond at *
    rcases le_total notAfter.unixNano (clock.Round Second).unixNano with h | h
    · rw [min_eq_left h, min_eq_left (by omega)]
      omega
    · rw [min_eq_right h, min_eq_right (by omega)]
      omega
  exact ⟨key expiresAt, by rw [key expiresAt, key expiresAt', he]⟩

/-- C8, amended, at now `1700000000.3 s` (rounded: `1700000000 s`),
`notAfter = 1700000000 s` and `expires_at = 1699996400 s`, replaced by
`1699996400.999999999 s`. -/
theorem GrantNotAfterValidate_second_resolution_witness :
    GrantNotAfterValidate.expectError (Unix 1700000000 300000000) (Unix 1700000000 0)
          (Unix 1699996400 0) =
        decide (min (Unix 1700000000 0).Unix ((Unix 1700000000 300000000).Round Second).Unix >
          (Unix 1699996400 0).Unix) ∧
      GrantNotAfterValidate.expectError (Unix 1700000000 300000000) (Unix 1700000000 0)
          (Unix 1699996400 0) =
        GrantNotAfterValidate.expectError (Unix 1700000000 300000000) (Unix 1700000000 0)
          (Unix 1699996400 999999999) :=
  GrantNotAfterValidate_second_resolution (Unix 1700000000 300000000) (Unix 1700000000 0)
    (Unix 1699996400 0) (Unix 1699996400 999999999) (by decide) (by decide)

/-- C9, as stated, fails: in the `notAfter24h` cycle at now `1700000000 s`, the
`isExpired` flags of the login and of the consent fixtures are
`[false, true, true]`, while `notAfterCheck` on the same `notAfter`, lifespan
cutoff and requested-at times gives `[false, false, false]`. -/
theorem LoginConsentNotAfterValidate_isExpired_ignores_notAfter :
    LoginConsentNotAfterValidate.loginExpired
        (JanitorTests.notAfter (Unix 1700000000 0) (lifespan * 24))
        (JanitorTests.consentRequestLifespan (Unix 1700000000 0))
        (genLoginRequests "janitor" lifespan (Unix 1700000000 0)) = [false, true, true] ∧
      LoginConsentNotAfterValidate.consentExpired
        (JanitorTests.notAfter (Unix 1700000000 0) (lifespan * 24))
        (JanitorTests.consentRequestLifespan (Unix 1700000000 0))
        (genConsentRequests "janitor" lifespan (Unix 1700000000 0)) = [false, true, true] ∧
      (genLoginRequests "janitor" lifespan (Unix 1700000000 0)).map
        (fun r => notAfterCheck (JanitorTests.notAfter (Unix 1700000000 0) (lifespan * 24))
          (JanitorTests.consentRequestLifespan (Unix 1700000000 0)) r.RequestedAt)
        = [false, false, false] ∧
      (genConsentRequests "janitor" lifespan (Unix 1700000000 0)).map
        (fun r => notAfterCheck (JanitorTests.notAfter (Unix 1700000000 0) (lifespan * 24))
          (JanitorTests.consentRequestLifespan (Unix 1700000000 0)) r.RequestedAt)
        = [false, false, false] := by
  decide

/-- C9, amended: the `isExpired` flag of `LoginConsentNotAfterValidate`, for the
login and for the consent fixtures alike, is true exactly when `requested_at`
is before the consent-request lifespan cutoff, whatever `notAfter` is; and it
equals `notAfterCheck` on the same arguments whenever the lifespan cutoff is a
whole number of seconds and `notAfter` is not earlier than it in Unix
seconds. -/
theorem LoginConsentNotAfterValidate_isExpired_lifespan_only
    (notAfter consentRequestLifespan requestedAt : Time) :
    (LoginConsentNotAfterValidate.isExpired notAfter consentRequestLifespan requestedAt = true ↔
        requestedAt.unixNano < consentRequestLifespan.unixNano) ∧
      (∀ notAfter' : Time,
        LoginConsentNotAfterValidate.isExpired notAfter consentRequestLifespan requestedAt
          = LoginConsentNotAfterValidate.isExpired notAfter' consentRequestLifespan
              requestedAt) ∧
      (∀ flushLoginRequests : List flow.LoginRequest,
        LoginConsentNotAfterValidate.loginExpired notAfter consentRequestLifespan
            flushLoginRequests
          = flushLoginRequests.map fun r =>
              decide (r.RequestedAt.unixNano < consentRequestLifespan.unixNano)) ∧
      (∀ flushConsentRequests : List flow.OAuth2ConsentRequest,
        LoginConsentNotAfterValidate.consentExpired notAfter consentRequestLifespan
            flushConsentRequests
          = flushConsentRequests.map fun r =>
              decide (r.RequestedAt.unixNano < consentRequestLifespan.unixNano)) ∧
      (consentRequestLifespan.Nanosecond = 0 → consentRequestLifespan.Unix ≤ notAfter.Unix →
        LoginConsentNotAfterValidate.isExpired notAfter consentRequestLifespan requestedAt
          = notAfterCheck notAfter consentRequestLifespan requestedAt) := by
  refine ⟨?_, fun _ => rfl, fun _ => rfl, fun _ => rfl, ?_⟩
  · unfold LoginConsentNotAfterValidate.isExpired Time.Before
    exact decide_eq_true_iff
  · intro hw hle
    rw [notAfterCheck_eq_decide, min_eq_right hle]
    unfold LoginConsentNotAfterValidate.isExpired Time.Before
    rw [decide_eq_decide]
    unfold Time.Unix Time.Nanosecond at *
    omega

/-- C9, amended, in the `notAfterNow` cycle at now `1700000000 s`: the lifespan
cutoff `1699996400 s` is a whole second not after `notAfter`, and for the
second login fixture, requested at `1699995800 s`, the flag is true and agrees
with `notAfterCheck`. -/
theorem LoginConsentNotAfterValidate_isExpired_lifespan_only_witness :
    LoginConsentNotAfterValidate.isExpired (Unix 1700000000 0) (Unix 1699996400 0)
          (Unix 1699995800 0) = true ∧
      LoginConsentNotAfterValidate.isExpired (Unix 1700000000 0) (Unix 1699996400 0)
          (Unix 1699995800 0)
        = notAfterCheck (Unix 1700000000 0) (Unix 1699996400 0) (Unix 1699995800 0) :=
  ⟨by decide,
    (LoginConsentNotAfterValidate_isExpired_lifespan_only (Unix 1700000000 0)
      (Unix 1699996400 0) (Unix 1699995800 0)).2.2.2.2 (by decide) (by decide)⟩

/-- C10: for every fixture prefix and clock reading, with now `T` the clock
rounded to the second, the login fixtures are requested at `T`,
`T - (1h + 10m)` and `T - 2h`, the lifespan cutoff is `T - 1h`, the
`notAfter1h30m` cycle gives `notAfter = T - 1h30m`, and the expiry flag that
`LoginConsentNotAfterValidate` computes for the login fixtures reports retain
for record 1 and delete for records 2 and 3. -/
theorem scenario_notAfter1h30m (uniqueName : String) (clock : Time) :
    NotAfterTestCycles.lookup "notAfter1h30m" = some (lifespan + Hour / 2) ∧
      (genLoginRequests uniqueName lifespan clock).map (fun r => r.RequestedAt)
        = [clock.Round Second, (clock.Round Second).Add (-(Hour + 10 * Minute)),
            (clock.Round Second).Add (-(2 * Hour))] ∧
      JanitorTests.consentRequestLifespan clock = (clock.Round Second).Add (-Hour) ∧
      JanitorTests.notAfter clock (lifespan + Hour / 2)
        = (clock.Round Second).Add (-(Hour + 30 * Minute)) ∧
      LoginConsentNotAfterValidate.loginExpired
          (JanitorTests.notAfter clock (lifespan + Hour / 2))
          (JanitorTests.consentRequestLifespan clock)
          (genLoginRequests uniqueName lifespan clock)
        = [false, true, true] := by
  have h2 : Duration.neg (Duration.add lifespan (10 * Minute)) = -(Hour + 10 * Minute) := by
    decide
  have h3 : Duration.neg (Duration.add lifespan Hour) = -(2 * Hour) := by decide
  have hl : Duration.neg GetConsentRequestLifespan = -Hour := by decide
  have hn : Duration.neg (lifespan + Hour / 2) = -(Hour + 30 * Minute) := by decide
  have e2 : -(Hour + 10 * Minute) = (-4200000000000 : Int) := by decide
  have e3 : -(2 * Hour) = (-7200000000000 : Int) := by decide
  have el : -Hour = (-3600000000000 : Int) := by decide
  refine ⟨by decide, ?_, ?_, ?_, ?_⟩
  · simp only [genLoginRequests, List.map, h2, h3]
  · simp only [JanitorTests.consentRequestLifespan, hl]
  · simp only [JanitorTests.notAfter, hn]
  · simp only [LoginConsentNotAfterValidate.loginExpired,
      LoginConsentNotAfterValidate.isExpired, genLoginRequests, List.map,
      JanitorTests.consentRequestLifespan, h2, h3, hl, e2, e3, el, Time.Before, Time.Add]
    simp only [List.cons.injEq, decide_eq_true_iff, decide_eq_false_iff_not, and_true]
    refine ⟨?_, ?_, ?_⟩ <;> omega

/-- C11: for every fixture prefix and clock reading, with now `T` the clock
rounded to the second, the login fixtures are requested at `T`, `T - (1h + 10m)`
and `T - 2h`, the lifespan cutoff is `T - 1h`, the `notAfterNow` cycle (offset
0) gives `notAfter = T`, and `notAfterCheck` reports retain for record 1 and
delete for records 2 and 3. -/
theorem scenario_notAfterNow (uniqueName : String) (clock : Time) :
    NotAfterTestCycles.lookup "notAfterNow" = some 0 ∧
      (genLoginRequests uniqueName lifespan clock).map (fun r => r.RequestedAt)
        = [clock.Round Second, (clock.Round Second).Add (-(Hour + 10 * Minute)),
            (clock.Round Second).Add (-(2 * Hour))] ∧
      JanitorTests.consentRequestLifespan clock = (clock.Round Second).Add (-Hour) ∧
      JanitorTests.notAfter clock 0 = clock.Round Second ∧
      (genLoginRequests uniqueName lifespan clock).map
        (fun r => notAfterCheck (JanitorTests.notAfter clock 0)
          (JanitorTests.consentRequestLifespan clock) r.RequestedAt)
        = [false, true, true] := by
  have h2 : Duration.neg (Duration.add lifespan (10 * Minute)) = -(Hour + 10 * Minute) := by
    decide
  have h3 : Duration.neg (Duration.add lifespan Hour) = -(2 * Hour) := by decide
  have hl : Duration.neg GetConsentRequestLifespan = -Hour := by decide
  have hn : Duration.neg 0 = 0 := by decide
  have e2 : -(Hour + 10 * Minute) = (-4200000000000 : Int) := by decide
  have e3 : -(2 * Hour) = (-7200000000000 : Int) := by decide
  have el : -Hour = (-3600000000000 : Int) := by decide
  have h0 : JanitorTests.notAfter clock 0 = clock.Round Second := by
    simp only [JanitorTests.notAfter, hn, Time.Add, add_zero]
  have hT := (Round_Second_unixNano clock).1
  refine ⟨by decide, ?_, ?_, h0, ?_⟩
  · simp only [genLoginRequests, List.map, h2, h3]
  · simp only [JanitorTests.consentRequestLifespan, hl]
  · simp only [genLoginRequests, List.map, JanitorTests.consentRequestLifespan, h0,
      h2, h3, hl, e2, e3, el, notAfterCheck_eq_decide]
    unfold Time.Unix Time.Add at *
    simp only [List.cons.injEq, decide_eq_true_iff, decide_eq_false_iff_not, and_true]
    refine ⟨?_, ?_, ?_⟩ <;> omega

/-- Duration arithmetic is exact when `lifespan + x` stays in the `int64`
range, for a positive constant `x`. -/
theorem neg_add_exact (lifespan x : Int) (hlo : -9223372036854775808 ≤ lifespan)
    (hx : 0 < x) (hhi : lifespan + x ≤ 9223372036854775807) :
    Duration.neg (Duration.add lifespan x) = -(lifespan + x) := by
  show wrap64 (-(wrap64 (lifespan + x))) = -(lifespan + x)
  unfold wrap64
  omega

/-- C12, as stated, fails: with `lifespan = 1h` at now `1700000000 s` the second
login fixture is requested at now - (lifespan + 10 minutes), not at
now - (lifespan + 1 minute). -/
theorem genLoginRequests_offsets_counterexample :
    (genLoginRequests "janitor" lifespan (Unix 1700000000 0)).map (fun r => r.RequestedAt)
        = [Unix 1700000000 0, (Unix 1700000000 0).Add (-(lifespan + 10 * Minute)),
            (Unix 1700000000 0).Add (-(lifespan + Hour))] ∧
      (genLoginRequests "janitor" lifespan (Unix 1700000000 0)).map (fun r => r.RequestedAt)
        ≠ [Unix 1700000000 0, (Unix 1700000000 0).Add (-(lifespan + Minute)),
            (Unix 1700000000 0).Add (-(lifespan + Hour))] := by
  decide

/-- C12, amended: for every prefix, lifespan and clock reading, with now the
clock rounded to the second, `genConsentRequests`, `getAccessRequests` and
`getRefreshRequests` return exactly three fixtures requested at now,
now - (lifespan + 1 minute) and now - (lifespan + 1 hour), in that order, and
`genLoginRequests` returns exactly three fixtures requested at now,
now - (lifespan + 10 minutes) and now - (lifespan + 1 hour); the offsets are
computed in 64-bit duration arithmetic and are the exact sums whenever
`lifespan + 1 hour` does not overflow. -/
theorem fixture_offsets (uniqueName : String) (lifespan : Duration) (clock : Time) :
    (genConsentRequests uniqueName lifespan clock).map (fun r => r.RequestedAt)
        = [clock.Round Second,
            (clock.Round Second).Add (Duration.neg (Duration.add lifespan Minute)),
            (clock.Round Second).Add (Duration.neg (Duration.add lifespan Hour))] ∧
      (getAccessRequests uniqueName lifespan clock).map (fun r => r.RequestedAt)
        = [clock.Round Second,
            (clock.Round Second).Add (Duration.neg (Duration.add lifespan Minute)),
            (clock.Round Second).Add (Duration.neg (Duration.add lifespan Hour))] ∧
      (getRefreshRequests uniqueName lifespan clock).map (fun r => r.Request.RequestedAt)
        = [clock.Round Second,
            (clock.Round Second).Add (Duration.neg (Duration.add lifespan Minute)),
            (clock.Round Second).Add (Duration.neg (Duration.add lifespan Hour))] ∧
      (genLoginRequests uniqueName lifespan clock).map (fun r => r.RequestedAt)
        = [clock.Round Second,
            (clock.Round Second).Add (Duration.neg (Duration.add lifespan (10 * Minute))),
            (clock.Round Second).Add (Duration.neg (Duration.add lifespan Hour))] ∧
      (-9223372036854775808 ≤ lifespan → lifespan + Hour ≤ 9223372036854775807 →
        Duration.neg (Duration.add lifespan Minute) = -(lifespan + Minute) ∧
        Duration.neg (Duration.add lifespan (10 * Minute)) = -(lifespan + 10 * Minute) ∧
        Duration.neg (Duration.add lifespan Hour) = -(lifespan + Hour)) := by
  refine ⟨rfl, rfl, rfl, rfl, fun hlo hhi => ?_⟩
  have hm : Minute = (60000000000 : Int) := by decide
  have hh : Hour = (3600000000000 : Int) := by decide
  rw [hh] at hhi
  refine ⟨?_, ?_, ?_⟩
  · rw [hm]
    exact neg_add_exact lifespan 60000000000 hlo (by decide) (le_trans (by linarith) hhi)
  · rw [hm]
    exact neg_add_exact lifespan (10 * 60000000000) hlo (by decide)
      (le_trans (by linarith) hhi)
  · rw [hh]
    exact neg_add_exact lifespan 3600000000000 hlo (by decide) hhi

/-- C12, amended, at `lifespan = 1h` and clock `1700000000.4 s`: the offsets
are exactly 1h1m (1h10m for the login fixtures) and 2h. -/
theorem fixture_offsets_witness :
    (genConsentRequests "janitor" Hour (Unix 1700000000 400000000)).map (fun r => r.RequestedAt)
        = [Unix 1700000000 0, Unix (1700000000 - 3660) 0, Unix (1700000000 - 7200) 0] ∧
      (genLoginRequests "janitor" Hour (Unix 1700000000 400000000)).map (fun r => r.RequestedAt)
        = [Unix 1700000000 0, Unix (1700000000 - 4200) 0, Unix (1700000000 - 7200) 0] ∧
      (Duration.neg (Duration.add Hour Minute) = -(Hour + Minute) ∧
        Duration.neg (Duration.add Hour (10 * Minute)) = -(Hour + 10 * Minute) ∧
        Duration.neg (Duration.add Hour Hour) = -(Hour + Hour)) :=
  ⟨by decide, by decide,
    (fixture_offsets "janitor" Hour (Unix 1700000000 400000000)).2.2.2.2 (by decide) (by decide)⟩

/-- Appending to the same prefix is injective. -/
theorem prefix_append_cancel {u a b : String} (h : u ++ a = u ++ b) : a = b := by
  have h' := congrArg String.data h
  rw [String.data_append, String.data_append] at h'
  exact String.ext (List.append_cancel_left h')

/-- Two prefixed names can only be equal when the suffixes are equal and so are
the prefixes, or when one suffix ends with the other. -/
theorem prefixed_eq_cases {u1 u2 s t : String} (h : u1 ++ s = u2 ++ t) :
    (s = t ∧ u1 = u2) ∨ (s ≠ t ∧ (s.data <:+ t.data ∨ t.data <:+ s.data)) := by
  have h' := congrArg String.data h
  rw [String.data_append, String.data_append] at h'
  by_cases hst : s = t
  · left
    subst hst
    exact ⟨rfl, String.ext (List.append_cancel_right h')⟩
  · right
    refine ⟨hst, ?_⟩
    rcases List.append_eq_append_iff.mp h' with ⟨a, _, ha⟩ | ⟨a, _, ha⟩
    · right; exact ⟨a, ha.symm⟩
    · left; exact ⟨a, ha.symm⟩

/-- Names built from two different prefixes and suffixes of which none ends
with another one never coincide. -/
theorem disjoint_prefixed {u1 u2 : String} (hu : u1 ≠ u2) (S T : List String)
    (hST : ∀ s ∈ S, ∀ t ∈ T, s = t ∨ (¬ s.data <:+ t.data ∧ ¬ t.data <:+ s.data)) :
    List.Disjoint (S.map (u1 ++ ·)) (T.map (u2 ++ ·)) := by
  intro x hx1 hx2
  obtain ⟨s, hs, rfl⟩ := List.mem_map.mp hx1
  obtain ⟨t, ht, hx⟩ := List.mem_map.mp hx2
  rcases prefixed_eq_cases hx.symm with ⟨_, huu⟩ | ⟨hne, hsuf⟩
  · exact hu huu
  · rcases hST s hs t ht with heq | ⟨h1, h2⟩
    · exact hne heq
    · rcases hsuf with h | h
      · exact h1 h
      · exact h2 h

/-- Names built from one prefix and pairwise different suffixes are pairwise
different. -/
theorem nodup_prefixed (u : String) (S : List String) (hS : S.Nodup) :
    (S.map (u ++ ·)).Nodup :=
  hS.map fun _ _ h => prefix_append_cancel h

/-- C13: for two different prefixes, the login-request IDs, the
consent-request IDs, the access-session IDs, the refresh-session IDs and the
client IDs (of the login, access and refresh generators together) generated for
one prefix are all different from those generated for the other; and for one
prefix the identifiers of each kind are pairwise different. -/
theorem fixture_ids_isolated (u1 u2 : String) (l1 l2 : Duration) (c1 c2 : Time)
    (h : u1 ≠ u2) :
    List.Disjoint (loginRequestIDs u1 l1 c1) (loginRequestIDs u2 l2 c2) ∧
      List.Disjoint (consentRequestIDs u1 l1 c1) (consentRequestIDs u2 l2 c2) ∧
      List.Disjoint (accessSessionIDs u1 l1 c1) (accessSessionIDs u2 l2 c2) ∧
      List.Disjoint (refreshSessionIDs u1 l1 c1) (refreshSessionIDs u2 l2 c2) ∧
      List.Disjoint (clientIDs u1 l1 c1) (clientIDs u2 l2 c2) ∧
      (loginRequestIDs u1 l1 c1).Nodup ∧ (consentRequestIDs u1 l1 c1).Nodup ∧
      (accessSessionIDs u1 l1 c1).Nodup ∧ (refreshSessionIDs u1 l1 c1).Nodup ∧
      (clientIDs u1 l1 c1).Nodup := by
  refine ⟨?_, ?_, ?_, ?_, ?_, ?_, ?_, ?_, ?_, ?_⟩
  · exact disjoint_prefixed h ["_flush-login-1", "_flush-login-2", "_flush-login-3"]
      ["_flush-login-1", "_flush-login-2", "_flush-login-3"] (by decide)
  · exact disjoint_prefixed h ["_flush-consent-1", "_flush-consent-2", "_flush-consent-3"]
      ["_flush-consent-1", "_flush-consent-2", "_flush-consent-3"] (by decide)
  · exact disjoint_prefixed h ["_flush-access-1", "_flush-access-2", "_flush-access-3"]
      ["_flush-access-1", "_flush-access-2", "_flush-access-3"] (by decide)
  · exact disjoint_prefixed h ["_flush-refresh-1", "_flush-refresh-2", "_flush-refresh-3"]
      ["_flush-refresh-1", "_flush-refresh-2", "_flush-refresh-3"] (by decide)
  · exact disjoint_prefixed h
      ["_flush-login-consent-1", "_flush-login-consent-2", "_flush-login-consent-3",
        "_flush-access-1", "_flush-access-2", "_flush-access-3",
        "_flush-refresh-1", "_flush-refresh-2", "_flush-refresh-3"]
      ["_flush-login-consent-1", "_flush-login-consent-2", "_flush-login-consent-3",
        "_flush-access-1", "_flush-access-2", "_flush-access-3",
        "_flush-refresh-1", "_flush-refresh-2", "_flush-refresh-3"] (by decide)
  · exact nodup_prefixed u1 ["_flush-login-1", "_flush-login-2", "_flush-login-3"] (by decide)
  · exact nodup_prefixed u1 ["_flush-consent-1", "_flush-consent-2", "_flush-consent-3"]
      (by decide)
  · exact nodup_prefixed u1 ["_flush-access-1", "_flush-access-2", "_flush-access-3"]
      (by decide)
  · exact nodup_prefixed u1 ["_flush-refresh-1", "_flush-refresh-2", "_flush-refresh-3"]
      (by decide)
  · exact nodup_prefixed u1
      ["_flush-login-consent-1", "_flush-login-consent-2", "_flush-login-consent-3",
        "_flush-access-1", "_flush-access-2", "_flush-access-3",
        "_flush-refresh-1", "_flush-refresh-2", "_flush-refresh-3"] (by decide)

/-- C13 at the prefixes `sqlite` and `sqlitelimit`, one a prefix of the other. -/
theorem fixture_ids_isolated_witness :
    List.Disjoint (loginRequestIDs "sqlite" Hour (Unix 1700000000 0))
        (loginRequestIDs "sqlitelimit" Hour (Unix 1700000000 0)) ∧
      List.Disjoint (consentRequestIDs "sqlite" Hour (Unix 1700000000 0))
        (consentRequestIDs "sqlitelimit" Hour (Unix 1700000000 0)) ∧
      List.Disjoint (accessSessionIDs "sqlite" Hour (Unix 1700000000 0))
        (accessSessionIDs "sqlitelimit" Hour (Unix 1700000000 0)) ∧
      List.Disjoint (refreshSessionIDs "sqlite" Hour (Unix 1700000000 0))
        (refreshSessionIDs "sqlitelimit" Hour (Unix 1700000000 0)) ∧
      List.Disjoint (clientIDs "sqlite" Hour (Unix 1700000000 0))
        (clientIDs "sqlitelimit" Hour (Unix 1700000000 0)) ∧
      (loginRequestIDs "sqlite" Hour (Unix 1700000000 0)).Nodup ∧
      (consentRequestIDs "sqlite" Hour (Unix 1700000000 0)).Nodup ∧
      (accessSessionIDs "sqlite" Hour (Unix 1700000000 0)).Nodup ∧
      (refreshSessionIDs "sqlite" Hour (Unix 1700000000 0)).Nodup ∧
      (clientIDs "sqlite" Hour (Unix 1700000000 0)).Nodup :=
  fixture_ids_isolated "sqlite" "sqlitelimit" Hour Hour (Unix 1700000000 0) (Unix 1700000000 0)
    (by decide)

/-- A round trip over an empty store deletes nothing. -/
theorem deleteBatch_nil {α : Type} (p : α → Bool) (n : Nat) :
    FlushExpired.deleteBatch p n [] = [] := by
  cases n <;> rfl

/-- Two round trips in a row delete what one round trip of the added size
deletes. -/
theorem deleteBatch_deleteBatch {α : Type} (p : α → Bool) (m : Nat) (xs : List α) :
    ∀ n, FlushExpired.deleteBatch p m (FlushExpired.deleteBatch p n xs)
      = FlushExpired.deleteBatch p (n + m) xs := by
  induction xs with
  | nil => intro n; simp [deleteBatch_nil]
  | cons x xs ih =>
    intro n
    cases n with
    | zero => simp [FlushExpired.deleteBatch]
    | succ n =>
      have e : n + 1 + m = (n + m) + 1 := by omega
      rw [e]
      by_cases hp : p x = true
      · simp only [FlushExpired.deleteBatch, hp, if_true]
        exact ih n
      · simp only [FlushExpired.deleteBatch, hp]
        cases m with
        | zero => simp [FlushExpired.deleteBatch]
        | succ m =>
          simp only [FlushExpired.deleteBatch, hp]
          have := ih (n + 1)
          simp only [Bool.false_eq_true, if_false, List.cons.injEq, true_and]
          rw [this]
          congr 1

/-- All round trips together delete the first candidates up to the sum of
their sizes. -/
theorem foldl_deleteBatch {α : Type} (p : α → Bool) (ns : List Nat) :
    ∀ store : List α, ns.foldl (fun st n => FlushExpired.deleteBatch p n st) store
      = FlushExpired.deleteBatch p ns.sum store := by
  induction ns with
  | nil => intro store; simp [FlushExpired.deleteBatch]
  | cons n ns ih =>
    intro store
    simp only [List.foldl_cons, List.sum_cons]
    rw [ih, deleteBatch_deleteBatch]

/-- The round trips of one call add up to the limit. -/
theorem batchSizes_sum (limit batchSize : Nat) :
    (FlushExpired.batchSizes limit batchSize).sum = limit := by
  have := Nat.div_add_mod limit batchSize
  unfold FlushExpired.batchSizes
  split
  · rename_i h
    simp only [List.append_nil, List.sum_replicate, smul_eq_mul]
    rw [h] at this
    rw [Nat.mul_comm]; omega
  · simp only [List.sum_append, List.sum_replicate, smul_eq_mul, List.sum_cons, List.sum_nil]
    rw [Nat.mul_comm]; omega

/-- Every round trip of a call has between one and `batchSize` identifiers. -/
theorem batchSizes_bounds (limit batchSize : Nat) (hb : 1 ≤ batchSize) :
    ∀ n ∈ FlushExpired.batchSizes limit batchSize, 1 ≤ n ∧ n ≤ batchSize := by
  intro n hn
  unfold FlushExpired.batchSizes at hn
  rcases List.mem_append.mp hn with h | h
  · have := List.eq_of_mem_replicate h
    omega
  · split at h
    · simp at h
    · rename_i hne
      have hlt := Nat.mod_lt limit (show batchSize > 0 by omega)
      simp only [List.mem_singleton] at h
      omega

/-- The number of artifacts that a round trip deletes. -/
theorem deleteBatch_length {α : Type} (p : α → Bool) (xs : List α) :
    ∀ n, (FlushExpired.deleteBatch p n xs).length + min n (xs.countP p) = xs.length := by
  induction xs with
  | nil => intro n; simp [deleteBatch_nil]
  | cons x xs ih =>
    intro n
    cases n with
    | zero => simp [FlushExpired.deleteBatch]
    | succ n =>
      by_cases hp : p x = true
      · simp only [FlushExpired.deleteBatch, hp, if_true, List.countP_cons_of_pos,
          List.length_cons]
        have := ih n
        omega
      · simp only [FlushExpired.deleteBatch, hp, List.length_cons]
        have := ih (n + 1)
        simp [List.countP_cons_of_neg, hp]
        omega

/-- The number of candidates that a round trip leaves. -/
theorem deleteBatch_countP {α : Type} (p : α → Bool) (xs : List α) :
    ∀ n, (FlushExpired.deleteBatch p n xs).countP p + min n (xs.countP p) = xs.countP p := by
  induction xs with
  | nil => intro n; simp [deleteBatch_nil]
  | cons x xs ih =>
    intro n
    cases n with
    | zero => simp [FlushExpired.deleteBatch]
    | succ n =>
      by_cases hp : p x = true
      · simp only [FlushExpired.deleteBatch, hp, if_true, List.countP_cons_of_pos]
        have := ih n
        omega
      · simp only [FlushExpired.deleteBatch, hp]
        have := ih (n + 1)
        simp [List.countP_cons_of_neg, hp]
        omega

/-- C14: for `limit ≥ 1` and `1 ≤ batchSize ≤ limit`, one call of
`FlushInactiveLoginConsentRequests` runs round trips of at most `batchSize`
identifiers, deletes at most `limit` artifacts (as many as there are
candidates, up to `limit`), and leaves at least `eligibleBefore - limit`
candidates; and the limit test case calls it with `limit = 2`, `batchSize = 1`
over three seeded login requests. -/
theorem FlushInactiveLoginConsentRequests_limit (now notAfter : Time) (maxAge : Duration)
    (limit batchSize : Nat) (store : List flow.LoginRequest)
    (hl : 1 ≤ limit) (hb : 1 ≤ batchSize) (hbl : batchSize ≤ limit) :
    (∀ n ∈ FlushExpired.batchSizes limit batchSize, 1 ≤ n ∧ n ≤ batchSize) ∧
      FlushExpired.batchSizes limit batchSize ≠ [] ∧
      (FlushInactiveLoginConsentRequests now notAfter maxAge limit batchSize store).length
        ≤ store.length ∧
      store.length
          - (FlushInactiveLoginConsentRequests now notAfter maxAge limit batchSize store).length
        = min limit
            (store.countP (FlushInactiveLoginConsentRequests.candidate now notAfter maxAge)) ∧
      store.length
          - (FlushInactiveLoginConsentRequests now notAfter maxAge limit batchSize store).length
        ≤ limit ∧
      store.countP (FlushInactiveLoginConsentRequests.candidate now notAfter maxAge) - limit
        ≤ (FlushInactiveLoginConsentRequests now notAfter maxAge limit batchSize store).countP
            (FlushInactiveLoginConsentRequests.candidate now notAfter maxAge) ∧
      (∀ clock : Time, JanitorTests.limitCleanupArgs clock = (clock.Round Second, 2, 1)) ∧
      ∀ (network : String) (clock : Time), (JanitorTests.limitSeeded network clock).length = 3 := by
  have hflush : FlushInactiveLoginConsentRequests now notAfter maxAge limit batchSize store
      = FlushExpired.deleteBatch
          (FlushInactiveLoginConsentRequests.candidate now notAfter maxAge) limit store := by
    unfold FlushInactiveLoginConsentRequests FlushExpired
    rw [foldl_deleteBatch, batchSizes_sum]
  have hlen := deleteBatch_length
    (FlushInactiveLoginConsentRequests.candidate now notAfter maxAge) store limit
  have hcnt := deleteBatch_countP
    (FlushInactiveLoginConsentRequests.candidate now notAfter maxAge) store limit
  have hne : FlushExpired.batchSizes limit batchSize ≠ [] := by
    intro h0
    have hs := batchSizes_sum limit batchSize
    rw [h0] at hs
    simp only [List.sum_nil] at hs
    omega
  rw [hflush]
  refine ⟨batchSizes_bounds limit batchSize hb, hne, ?_, ?_, ?_, ?_, fun _ => rfl,
    fun _ _ => rfl⟩ <;> omega

/-- C14 at the limit test case: `limit = 2`, `batchSize = 1`, `notAfter` the
whole second `1700000000 s`, a store holding three login requests that are all
candidates. -/
theorem FlushInactiveLoginConsentRequests_limit_witness :
    (genLoginRequests "sqlitelimit" lifespan (Unix 1699990000 0)).countP
        (FlushInactiveLoginConsentRequests.candidate (Unix 1700000000 0) (Unix 1700000000 0)
          Hour) = 3 ∧
      (FlushInactiveLoginConsentRequests (Unix 1700000000 0) (Unix 1700000000 0) Hour 2 1
        (genLoginRequests "sqlitelimit" lifespan (Unix 1699990000 0))).length = 1 ∧
      (genLoginRequests "sqlitelimit" lifespan (Unix 1699990000 0)).length
          - (FlushInactiveLoginConsentRequests (Unix 1700000000 0) (Unix 1700000000 0) Hour 2 1
              (genLoginRequests "sqlitelimit" lifespan (Unix 1699990000 0))).length
        ≤ 2 :=
  ⟨by decide, by decide,
    (FlushInactiveLoginConsentRequests_limit (Unix 1700000000 0) (Unix 1700000000 0) Hour 2 1
      (genLoginRequests "sqlitelimit" lifespan (Unix 1699990000 0))
      (by decide) (by decide) (by decide)).2.2.2.2.1⟩

/-- A stretch without separator that is followed by a separator becomes one
part. -/
theorem Split_go_segment (sep : Char) (rest : List Char) :
    ∀ a acc : List Char, sep ∉ a →
      strings.Split.go sep (a ++ sep :: rest) acc
        = String.mk (acc.reverse ++ a) :: strings.Split.go sep rest [] := by
  intro a
  induction a with
  | nil => intro acc _; simp [strings.Split.go]
  | cons c cs ih =>
    intro acc hc
    have hne : c ≠ sep := fun h => hc (by simp [h])
    have hcs : sep ∉ cs := fun h => hc (List.mem_cons_of_mem _ h)
    have step : strings.Split.go sep (c :: cs ++ sep :: rest) acc
        = strings.Split.go sep (cs ++ sep :: rest) (c :: acc) := by
      show strings.Split.go sep (c :: (cs ++ sep :: rest)) acc = _
      simp only [strings.Split.go, hne, if_false]
    rw [step, ih (c :: acc) hcs]
    simp

/-- A stretch without separator at the end becomes the last part. -/
theorem Split_go_last (sep : Char) :
    ∀ a acc : List Char, sep ∉ a →
      strings.Split.go sep a acc = [String.mk (acc.reverse ++ a)] := by
  intro a
  induction a with
  | nil => intro acc _; simp [strings.Split.go]
  | cons c cs ih =>
    intro acc hc
    have hne : c ≠ sep := fun h => hc (by simp [h])
    have hcs : sep ∉ cs := fun h => hc (List.mem_cons_of_mem _ h)
    simp only [strings.Split.go, hne, if_false]
    rw [ih (c :: acc) hcs]
    simp

/-- A token made of three dot-free parts joined by dots splits into these
parts. -/
theorem Split_three (header payload signature : String) (hh : '.' ∉ header.data)
    (hp : '.' ∉ payload.data) (hs : '.' ∉ signature.data) :
    strings.Split (header ++ "." ++ payload ++ "." ++ signature) '.'
      = [header, payload, signature] := by
  have hd : (header ++ "." ++ payload ++ "." ++ signature).data
      = header.data ++ '.' :: (payload.data ++ '.' :: signature.data) := by
    simp only [String.data_append]
    simp
  unfold strings.Split
  rw [hd, Split_go_segment _ _ _ _ hh, Split_go_segment _ _ _ _ hp, Split_go_last _ _ _ hs]
  rfl

/-- C15: a token made of a header, a payload and a signature without dots,
joined by dots, splits into these three parts, and `InsecureDecodeJWT` succeeds
on it with the decoding of the payload when the payload decodes, whatever the
header and the signature are; for every token that splits on dots into exactly
three parts the result is the decoding of the second part and is the same for
every other first and third part; and for every token that does not split into
exactly three parts, or whose second part does not decode, the helper reports a
test failure. -/
theorem InsecureDecodeJWT_payload_only (DecodeString : String → Option (List Nat))
    (header payload signature header' signature' : String)
    (hh : '.' ∉ header.data) (hp : '.' ∉ payload.data) (hs : '.' ∉ signature.data)
    (hh' : '.' ∉ header'.data) (hs' : '.' ∉ signature'.data) :
    strings.Split (header ++ "." ++ payload ++ "." ++ signature) '.'
        = [header, payload, signature] ∧
      (∀ dec, DecodeString payload = some dec →
        InsecureDecodeJWT DecodeString (header ++ "." ++ payload ++ "." ++ signature)
          = .ok dec) ∧
      InsecureDecodeJWT DecodeString (header ++ "." ++ payload ++ "." ++ signature)
        = InsecureDecodeJWT DecodeString (header' ++ "." ++ payload ++ "." ++ signature') ∧
      (DecodeString payload = none →
        InsecureDecodeJWT DecodeString (header ++ "." ++ payload ++ "." ++ signature)
          = .error TestFailure.NoErrorf) ∧
      (∀ token : String, (strings.Split token '.').length ≠ 3 →
        InsecureDecodeJWT DecodeString token = .error TestFailure.Len) ∧
      (∀ (token a b c : String), strings.Split token '.' = [a, b, c] → DecodeString b = none →
        InsecureDecodeJWT DecodeString token = .error TestFailure.NoErrorf) ∧
      (∀ (token a b c : String) (dec : List Nat), strings.Split token '.' = [a, b, c] →
        DecodeString b = some dec → InsecureDecodeJWT DecodeString token = .ok dec) ∧
      (∀ (token token' a b c a' c' : String), strings.Split token '.' = [a, b, c] →
        strings.Split token' '.' = [a', b, c'] →
        InsecureDecodeJWT DecodeString token = InsecureDecodeJWT DecodeString token') := by
  have h3 := Split_three header payload signature hh hp hs
  have h3' := Split_three header' payload signature' hh' hp hs'
  refine ⟨h3, ?_, ?_, ?_, ?_, ?_, ?_, ?_⟩
  · intro dec hdec
    simp only [InsecureDecodeJWT, h3, hdec]
  · simp only [InsecureDecodeJWT, h3, h3']
  · intro hdec
    simp only [InsecureDecodeJWT, h3, hdec]
  · intro token hlen
    unfold InsecureDecodeJWT
    match hsp : strings.Split token '.' with
    | [] => rfl
    | [_] => rfl
    | [_, _] => rfl
    | [_, _, _] => rw [hsp] at hlen; simp at hlen
    | _ :: _ :: _ :: _ :: _ => rfl
  · intro token a b c hsp hdec
    simp only [InsecureDecodeJWT, hsp, hdec]
  · intro token a b c dec hsp hdec
    simp only [InsecureDecodeJWT, hsp, hdec]
  · intro token token' a b c a' c' hsp hsp'
    simp only [InsecureDecodeJWT, hsp, hsp']

/-- C15 with Go's unpadded URL-safe decoder, at a token whose payload
`eyJzdWIiOiJiYXIifQ` encodes the thirteen bytes of a JSON object, with two
different headers and signatures. -/
theorem InsecureDecodeJWT_payload_only_witness :
    InsecureDecodeJWT base64.RawURLEncoding.DecodeString "eyJhbGciOiJub25lIn0.eyJzdWIiOiJiYXIifQ.c2ln"
        = .ok [123, 34, 115, 117, 98, 34, 58, 34, 98, 97, 114, 34, 125] ∧
      InsecureDecodeJWT base64.RawURLEncoding.DecodeString
          ("eyJhbGciOiJub25lIn0" ++ "." ++ "eyJzdWIiOiJiYXIifQ" ++ "." ++ "c2ln")
        = InsecureDecodeJWT base64.RawURLEncoding.DecodeString
          ("e30" ++ "." ++ "eyJzdWIiOiJiYXIifQ" ++ "." ++ "") :=
  ⟨(InsecureDecodeJWT_payload_only base64.RawURLEncoding.DecodeString "eyJhbGciOiJub25lIn0"
      "eyJzdWIiOiJiYXIifQ" "c2ln" "e30" "" (by decide) (by decide) (by decide) (by decide)
      (by decide)).2.1 _ (by decide),
    (InsecureDecodeJWT_payload_only base64.RawURLEncoding.DecodeString "eyJhbGciOiJub25lIn0"
      "eyJzdWIiOiJiYXIifQ" "c2ln" "e30" "" (by decide) (by decide) (by decide) (by decide)
      (by decide)).2.2.1⟩

/-- C16: for every prefix, the consent fixtures carry, in order, the IDs of the
login fixtures as `LoginChallenge` and the IDs of their clients as
`ClientID`. -/
theorem consent_fixtures_reference_login_fixtures (uniqueName : String)
    (lifespan lifespan' : Duration) (clock clock' : Time) :
    (genConsentRequests uniqueName lifespan clock).length = 3 ∧
      (genLoginRequests uniqueName lifespan' clock').length = 3 ∧
      (genConsentRequests uniqueName lifespan clock).map (fun r => r.LoginChallenge)
        = (genLoginRequests uniqueName lifespan' clock').map (fun r => r.ID) ∧
      (genConsentRequests uniqueName lifespan clock).map (fun r => r.ClientID)
        = (genLoginRequests uniqueName lifespan' clock').map (fun r => r.Client.ID) :=
  ⟨rfl, rfl, rfl, rfl⟩

/-- C17 fails on the code: with a login handler that answers 200 and a nil
consent handler, `NewLoginConsentUI` serves the not-implemented handler on the
login server, not the supplied one, and gives the consent server the nil
handler, not the not-implemented one. -/
theorem NewLoginConsentUI_nil_consent_replaces_login :
    (NewLoginConsentUI (some fun _ => 200) none).1 = some HTTPServerNotImplementedHandler ∧
      (NewLoginConsentUI (some fun _ => 200) none).1 ≠ some (fun _ => 200) ∧
      (NewLoginConsentUI (some fun _ => 200) none).2 = none ∧
      (NewLoginConsentUI (some fun _ => 200) none).2 ≠ some HTTPServerNotImplementedHandler := by
  refine ⟨rfl, ?_, rfl, ?_⟩
  · intro h
    have h' : HTTPServerNotImplementedHandler = fun _ => 200 := Option.some.inj h
    have h'' := congrFun h' ""
    exact absurd h'' (by decide)
  · intro h
    exact Option.noConfusion h

end testhelpers
